import Mathlib

/-
Verification of the client-side aggregation components of the PM2.5
dashboard: SeasonalChart.processedData (SeasonalComparator),
TrendChart.chartData (MovingAverageFilter), Heatmap.matrix
(TemporalAggregator, month buckets), DailyHeatmap.calendarData
(TemporalAggregator, day frame) and HealthChart.chartData
(HealthCorrelationAligner, two versions).

Values are modelled as rationals.  A date string is modelled by the
result of parsing it: some (year, month, day) for a parseable
ISO 8601 day, none for a malformed string (the components skip such
readings because every comparison against NaN is false).
-/

namespace PM25

/-- Result of successfully parsing a date string: calendar year,
month 1..12 and day of month 1..31. -/
structure Ymd where
  year : Int
  month : Nat
  day : Nat
deriving DecidableEq, Repr

/-- One reading as consumed by the components: the parse result of the
date string, and the measured value. -/
structure DataPoint where
  date : Option Ymd
  value : ℚ
deriving DecidableEq, Repr

/-! ### Calendar arithmetic (embedding of the date-fns functions used) -/

/-- Gregorian leap-year test. -/
def isLeap (y : Int) : Bool :=
  (y % 4 == 0 && y % 100 != 0) || (y % 400 == 0)

/-- Number of days in month m (1..12) of year y. -/
def daysInMonth (y : Int) (m : Nat) : Nat :=
  if m = 2 then (if isLeap y then 29 else 28)
  else if m = 4 ∨ m = 6 ∨ m = 9 ∨ m = 11 then 30 else 31

/-- Offsets used by the Sakamoto day-of-week formula. -/
def sakamoto : List Int := [0, 3, 2, 5, 0, 3, 5, 1, 4, 6, 2, 4]

/-- Day of week with the JavaScript getDay convention: 0 = Sunday,
1 = Monday, ..., 6 = Saturday (Sakamoto formula, valid for y ≥ 1). -/
def getDayOfWeek (y : Int) (m d : Nat) : Nat :=
  let y2 : Int := if m < 3 then y - 1 else y
  ((y2 + y2 / 4 - y2 / 100 + y2 / 400 + sakamoto.getD (m - 1) 0 + (d : Int)) % 7).toNat

/-- Day of year, 1-based. -/
def ordinalDay (d : Ymd) : Nat :=
  d.day + ((List.range (d.month - 1)).map (fun m0 => daysInMonth d.year (m0 + 1))).sum

/-- ISO weekday: 1 = Monday, ..., 7 = Sunday. -/
def isoWeekday (d : Ymd) : Nat :=
  ((getDayOfWeek d.year d.month d.day + 6) % 7) + 1

/-- Whether the ISO week-numbering year y has 53 weeks. -/
def isoLongYear (y : Int) : Bool :=
  getDayOfWeek y 1 1 == 4 || (isLeap y && getDayOfWeek y 1 1 == 3)

/-- Number of ISO weeks in the ISO week-numbering year y (52 or 53). -/
def isoWeeksInYear (y : Int) : Nat :=
  if isoLongYear y then 53 else 52

/-- ISO 8601 week number together with the ISO week-numbering year the
date belongs to (embedding of the date-fns getISOWeek computation). -/
def isoWeekPair (d : Ymd) : Nat × Int :=
  let w0 : Int := ((ordinalDay d : Int) - (isoWeekday d : Int) + 10) / 7
  if w0 < 1 then (isoWeeksInYear (d.year - 1), d.year - 1)
  else if w0 > (isoWeeksInYear d.year : Int) then (1, d.year + 1)
  else (w0.toNat, d.year)

/-- ISO 8601 week number (1..53) of a date, as date-fns getISOWeek. -/
def getISOWeek (d : Ymd) : Nat := (isoWeekPair d).1

/-- ISO week-numbering year of a date: edge days near a calendar-year
boundary belong to the ISO week-year, not the calendar year. -/
def isoWeekYear (d : Ymd) : Int := (isoWeekPair d).2

/-! ### SeasonalChart.processedData (SeasonalComparator) -/

/-- Median helper of SeasonalChart: returns 0 on the empty list, else
sorts ascending and takes the middle element (odd length) or the mean
of the two middle elements (even length). -/
def calculateMedian (values : List ℚ) : ℚ :=
  if values.length = 0 then 0
  else
    let sorted := List.insertionSort (· ≤ ·) values
    let mid := sorted.length / 2
    if sorted.length % 2 ≠ 0 then (sorted.get? mid).getD 0
    else (((sorted.get? (mid - 1)).getD 0) + ((sorted.get? mid).getD 0)) / 2

/-- Values of the readings that parse, satisfy the year predicate and
fall in 0-based month m, in input order (the forEach push loop). -/
def monthPartition (data : List DataPoint) (pred : Int → Bool) (m : Nat) : List ℚ :=
  (data.filter (fun d =>
    match d.date with
    | some ymd => pred ymd.year && (ymd.month - 1 == m)
    | none => false)).map (fun d => d.value)

/-- One row of the seasonal comparison table. -/
structure MonthRow where
  month : String
  current : Option ℚ
  prev : Option ℚ
  median : Option ℚ
deriving DecidableEq, Repr

/-- Month labels in Jan–Dec order. -/
def monthNames : List String :=
  ["Jan", "Feb", "Mar", "Apr", "May", "Jun", "Jul", "Aug", "Sep", "Oct", "Nov", "Dec"]

/-- Row of the seasonal table for 0-based month i: the 2025 mean, the
2024 mean and the 2020–2024 median; a field is none when its partition
is empty. -/
def seasonalRow (data : List DataPoint) (i : Nat) : MonthRow :=
  let vals2025 := monthPartition data (fun y => y == 2025) i
  let vals2024 := monthPartition data (fun y => y == 2024) i
  let valsMedian := monthPartition data (fun y => 2020 ≤ y && y ≤ 2024) i
  { month := monthNames.getD i "",
    current := if vals2025.length > 0 then some (vals2025.sum / (vals2025.length : ℚ)) else none,
    prev := if vals2024.length > 0 then some (vals2024.sum / (vals2024.length : ℚ)) else none,
    median := if valsMedian.length > 0 then some (calculateMedian valsMedian) else none }

/-- SeasonalChart.processedData: early return [] on empty input, else
one row per calendar month 0..11. -/
def processedData (data : List DataPoint) : List MonthRow :=
  if data = [] then []
  else (List.range 12).map (seasonalRow data)

/-! ### TrendChart.chartData (MovingAverageFilter) -/

/-- A reading for the trend chart; the chart sorts by the numeric
timestamp of the parsed date, modelled by a lexicographic key. -/
structure TPoint where
  date : Ymd
  value : ℚ
deriving DecidableEq, Repr

/-- Sort key of a parsed date: orders like the millisecond timestamp
for calendar dates (month 1..12, day 1..31). -/
def dateKey (d : Ymd) : Int :=
  d.year * 10000 + (d.month : Int) * 100 + (d.day : Int)

/-- Comparison used by the defensive sort of TrendChart. -/
def trendLe (a b : TPoint) : Prop := dateKey a.date ≤ dateKey b.date

instance : DecidableRel trendLe := fun _ _ => Int.decLe _ _

instance : IsTotal TPoint trendLe := ⟨fun _ _ => Int.le_total _ _⟩

instance : IsTrans TPoint trendLe := ⟨fun _ _ _ h1 h2 => le_trans h1 h2⟩

/-- Strict comparison on date keys, used to show that the sorted order
is unique when all date keys are distinct. -/
def trendLt (a b : TPoint) : Prop := dateKey a.date < dateKey b.date

instance : DecidableRel trendLt := fun _ _ => Int.decLt _ _

instance : IsAntisymm TPoint trendLt :=
  ⟨fun _ _ h1 h2 => absurd h1 (lt_asymm h2)⟩

/-- Defensive ascending re-sort by date (a stable sort, as the
JavaScript Array.prototype.sort). -/
def trendSort (data : List TPoint) : List TPoint :=
  List.insertionSort trendLe data

/-- One output row of the trend chart: the reading plus its trailing
moving average. -/
structure TrendRow where
  date : Ymd
  value : ℚ
  ma : Option ℚ
deriving DecidableEq, Repr

/-- The w values read by the inner summation loop: positions i, i-1,
..., i-w+1 of the sorted array (all in range when w - 1 ≤ i). -/
def windowVals (arr : List TPoint) (w i : Nat) : List ℚ :=
  (List.range w).map (fun k => ((arr.get? (i - k)).map TPoint.value).getD 0)

/-- Row at index i of the sorted array: moving average of the w most
recent values when w - 1 ≤ i, null otherwise. -/
def trendRowAt (arr : List TPoint) (w i : Nat) : TrendRow :=
  let p := (arr.get? i).getD ⟨⟨0, 0, 0⟩, 0⟩
  { date := p.date, value := p.value,
    ma := if w - 1 ≤ i then some ((windowVals arr w i).sum / (w : ℚ)) else none }

/-- TrendChart.chartData: early return [] on empty input, else map
with index over the defensively sorted array. -/
def chartData (w : Nat) (data : List TPoint) : List TrendRow :=
  if data = [] then []
  else
    let sorted := trendSort data
    (List.range sorted.length).map (trendRowAt sorted w)

/-! ### Heatmap.matrix (TemporalAggregator, month buckets) -/

/-- One step of the aggregation pass of Heatmap.matrix: a reading
whose date fails to parse is skipped, otherwise the (year, 0-based
month) entry gets the value added to its running sum and count. -/
def matrixStep (acc : Int → Nat → Option (ℚ × Nat)) (d : DataPoint) : Int → Nat → Option (ℚ × Nat) :=
  match d.date with
  | none => acc
  | some ymd => fun y m =>
      if y = ymd.year ∧ m = ymd.month - 1 then
        match acc ymd.year (ymd.month - 1) with
        | none => some (d.value, 1)
        | some e => some (e.1 + d.value, e.2 + 1)
      else acc y m

/-- The aggregation pass of Heatmap.matrix: one fold over the data
building, for each (year, 0-based month) key, the running sum and
count. -/
def matrixFold (data : List DataPoint) : Int → Nat → Option (ℚ × Nat) :=
  data.foldl matrixStep (fun _ _ => none)

/-- The rendered cell of the heatmap: sum divided by count when the
bucket exists, null otherwise. -/
def heatmapAvg (data : List DataPoint) (y : Int) (m : Nat) : Option ℚ :=
  match matrixFold data y m with
  | some e => some (e.1 / (e.2 : ℚ))
  | none => none

/-- The values whose parseable date has calendar year y and 0-based
month m, in input order. -/
def monthVals (data : List DataPoint) (y : Int) (m : Nat) : List ℚ :=
  (data.filter (fun d =>
    match d.date with
    | some ymd => y == ymd.year && m == ymd.month - 1
    | none => false)).map (fun d => d.value)

/-! ### DailyHeatmap.calendarData (TemporalAggregator, day frame) -/

/-- All days of calendar year y in calendar order. -/
def yearDays (y : Int) : List Ymd :=
  (List.range 12).flatMap (fun m0 =>
    (List.range (daysInMonth y (m0 + 1))).map (fun d0 => ⟨y, m0 + 1, d0 + 1⟩))

/-- The dataMap lookup: last reading for the given date wins (Map.set
overwrites on duplicate keys); readings with unparseable dates never
match a formatted grid date. -/
def lookupLast (data : List DataPoint) (k : Ymd) : Option ℚ :=
  data.foldl (fun acc d =>
    match d.date with
    | some dd => if dd = k then some d.value else acc
    | none => acc) none

/-- Value shown for one day of the grid: dataMap.get(dateStr) OR null,
so a stored value of 0 is falsy and collapses to null. -/
def dayValue (data : List DataPoint) (k : Ymd) : Option ℚ :=
  match lookupLast data k with
  | some v => if v = 0 then none else some v
  | none => none

/-- One populated cell of the day grid. -/
structure DayCell where
  date : Ymd
  value : Option ℚ
deriving DecidableEq, Repr

/-- DailyHeatmap.calendarData: getDay(Jan 1) leading padding cells
(none), then one cell per day of the year. -/
def calendarData (data : List DataPoint) (y : Int) : List (Option DayCell) :=
  List.replicate (getDayOfWeek y 1 1) none ++
    (yearDays y).map (fun k => some ⟨k, dayValue data k⟩)

/-- Number of leading padding cells of the day grid. -/
def leadingPad (cells : List (Option DayCell)) : Nat :=
  (cells.takeWhile (fun c => c.isNone)).length

/-- Weekday index of January 1 under the Monday = 0 convention, the
convention the specification names for the padding. -/
def mondayIdxJan1 (y : Int) : Nat :=
  (getDayOfWeek y 1 1 + 6) % 7

/-! ### HealthChart.chartData (HealthCorrelationAligner) -/

/-- A JavaScript numeric slot that can also hold null or undefined:
the two are distinct, and the emission test of the first version
compares against null only. -/
inductive JsNum where
  | jsNull
  | jsUndef
  | num (v : ℚ)
deriving DecidableEq, Repr

/-- Per-province, per-year health data: 53 weekly case counts per
disease category name. -/
structure YearHDC where
  weeks : List ℚ
  diseases : List (String × List ℚ)
deriving DecidableEq, Repr

/-- The hdc_consolidated payload: category names in metadata.groups,
and province → year → YearHDC. -/
structure HDCData where
  groups : List String
  data : List (String × List (Int × YearHDC))
deriving DecidableEq, Repr

/-- One step of the weekly bucketing pass: push the value of a reading
whose calendar year equals the selected year into the bucket keyed by
its ISO week number, when that bucket exists. -/
def weeklyStep (Y : Int) (acc : Nat → Option (List ℚ)) (d : DataPoint) : Nat → Option (List ℚ) :=
  match d.date with
  | none => acc
  | some ymd =>
    if ymd.year = Y then
      let w := getISOWeek ymd
      match acc w with
      | some l => fun x => if x = w then some (l ++ [d.value]) else acc x
      | none => acc
    else acc

/-- The weeklyPM25 dictionary: keys 1..53 initialised to [], then one
pass over the readings. -/
def weeklyBuckets (pm25 : List DataPoint) (Y : Int) : Nat → Option (List ℚ) :=
  pm25.foldl (weeklyStep Y) (fun w => if 1 ≤ w ∧ w ≤ 53 then some [] else none)

/-- Weekly PM2.5 average of the selected year: mean of the bucket when
non-empty, null otherwise. -/
def avgPM25At (pm25 : List DataPoint) (Y : Int) (w : Nat) : Option ℚ :=
  match weeklyBuckets pm25 Y w with
  | some vals => if 0 < vals.length then some (vals.sum / (vals.length : ℚ)) else none
  | none => none

/-- Membership test matching the bucket construction: the reading
parses, its calendar year is the selected year and its ISO week number
is w. -/
def weekMatch (Y : Int) (w : Nat) (d : DataPoint) : Bool :=
  match d.date with
  | some ymd => ymd.year == Y && getISOWeek ymd == w
  | none => false

/-- Case count of the first version at 0-based week index i: null when
the selected category is absent, undefined when its array is shorter
than i + 1, the stored number otherwise. -/
def caseCount1 (yh : YearHDC) (sel : String) (i : Nat) : JsNum :=
  match List.lookup sel yh.diseases with
  | some counts =>
    match counts.get? i with
    | some c => .num c
    | none => .jsUndef
  | none => .jsNull

/-- One row of the first version of HealthChart.chartData. -/
structure Row1 where
  week : Nat
  pm25 : Option ℚ
  cases : JsNum
deriving DecidableEq, Repr

/-- Loop body of the first version at 0-based week index i: emit the
row when the PM2.5 average is not null or the case count is not null
(an undefined case count also passes the test). -/
def mkRow1 (pm25 : List DataPoint) (Y : Int) (sel : String) (yh : YearHDC) (i : Nat) : Option Row1 :=
  let avg := avgPM25At pm25 Y (i + 1)
  let cc := caseCount1 yh sel i
  if avg ≠ none ∨ cc ≠ .jsNull then some ⟨i + 1, avg, cc⟩ else none

/-- HealthChart.chartData, first version: validation guards, then the
53-week loop. -/
def chartData1 (pm25 : List DataPoint) (province : String) (hdc : Option HDCData)
    (Y : Int) (sel : String) : List Row1 :=
  match hdc with
  | none => []
  | some h =>
    match List.lookup province h.data with
    | none => []
    | some ymap =>
      match List.lookup Y ymap with
      | none => []
      | some yh =>
        if pm25 = [] then []
        else (List.range 53).filterMap (mkRow1 pm25 Y sel yh)

/-- Accumulator of the per-group forEach of the second version. -/
structure GAcc where
  gc : List (String × ℚ)
  total : ℚ
  hasData : Bool
deriving DecidableEq, Repr

/-- Assignment to a JavaScript object property: overwrite when the key
exists, append otherwise. -/
def setKey (l : List (String × ℚ)) (k : String) (v : ℚ) : List (String × ℚ) :=
  if (List.lookup k l).isSome then
    l.map (fun p => if p.1 = k then (k, v) else p)
  else l ++ [(k, v)]

/-- One step of the groups.forEach pass of the second version at
0-based week index i: a named category whose array has an entry at i
is collected, added to totalCases and marks that health data exists. -/
def groupStep (diseases : List (String × List ℚ)) (i : Nat) (acc : GAcc) (g : String) : GAcc :=
  match List.lookup g diseases with
  | some counts =>
    match counts.get? i with
    | some c => ⟨setKey acc.gc g c, acc.total + c, true⟩
    | none => acc
  | none => acc

/-- The groups.forEach pass of the second version at 0-based week
index i. -/
def groupsCollect (groups : List String) (diseases : List (String × List ℚ)) (i : Nat) : GAcc :=
  groups.foldl (groupStep diseases i) ⟨[], 0, false⟩

/-- Contribution of one named category at 0-based week index i, zero
when the category or the entry is missing. -/
def countAt (diseases : List (String × List ℚ)) (g : String) (i : Nat) : ℚ :=
  match List.lookup g diseases with
  | some counts => (counts.get? i).getD 0
  | none => 0

/-- One row of the second version of HealthChart.chartData. -/
structure Row2 where
  week : Nat
  pm25 : Option ℚ
  cases : JsNum
  gcounts : List (String × ℚ)
deriving DecidableEq, Repr

/-- Loop body of the second version at 0-based week index i: emit when
the PM2.5 average is not null or some named category has an entry; the
cases field is the recomputed total for Total, else the collected
count of the selected category (undefined when absent). -/
def mkRow2 (pm25 : List DataPoint) (Y : Int) (sel : String) (groups : List String)
    (yh : YearHDC) (i : Nat) : Option Row2 :=
  let avg := avgPM25At pm25 Y (i + 1)
  let a := groupsCollect groups yh.diseases i
  if avg ≠ none ∨ a.hasData = true then
    some ⟨i + 1, avg,
      (if sel = "Total" then .num a.total
       else match List.lookup sel a.gc with
            | some c => .num c
            | none => .jsUndef),
      a.gc⟩
  else none

/-- HealthChart.chartData, second version: validation guards, then the
53-week loop with the per-group collection. -/
def chartData2 (pm25 : List DataPoint) (province : String) (hdc : Option HDCData)
    (Y : Int) (sel : String) : List Row2 :=
  match hdc with
  | none => []
  | some h =>
    match List.lookup province h.data with
    | none => []
    | some ymap =>
      match List.lookup Y ymap with
      | none => []
      | some yh =>
        if pm25 = [] then []
        else (List.range 53).filterMap (mkRow2 pm25 Y sel h.groups yh)

/-! ### Supporting lemmas -/

lemma processedData_get? (data : List DataPoint) (h : data ≠ []) (i : Nat) (hi : i < 12) :
    (processedData data).get? i = some (seasonalRow data i) := by
  rw [processedData, if_neg h, List.get?_map, List.get?_range hi]
  rfl

lemma takeWhile_replicate_append (n : Nat) (l : List (Option DayCell)) :
    (List.replicate n (none : Option DayCell) ++ l).takeWhile (fun c => c.isNone)
      = List.replicate n none ++ l.takeWhile (fun c => c.isNone) := by
  induction n with
  | zero => simp
  | succ k ih => simp [List.replicate_succ, List.takeWhile_cons, ih]

lemma takeWhile_map_some (l : List Ymd) (f : Ymd → DayCell) :
    ((l.map (fun k => some (f k))).takeWhile (fun c => c.isNone)) = [] := by
  cases l with
  | nil => rfl
  | cons a t => simp [List.takeWhile_cons]

/-! ### Claim C1 -/

/-- C1 counterexample: on the empty series, processedData returns an
empty list rather than 12 rows (the component early-returns before the
month loop). -/
theorem C1_empty_input_counterexample :
    processedData [] = [] ∧ (processedData []).length ≠ 12 :=
  ⟨rfl, by decide⟩

/-- C1 (amended): for every non-empty input series, processedData
returns exactly 12 rows, one per calendar month in Jan–Dec order; for
the empty series it returns no rows at all. -/
theorem C1_twelve_rows (data : List DataPoint) (h : data ≠ []) :
    (processedData data).map MonthRow.month = monthNames ∧
      (processedData data).length = 12 := by
  rw [processedData, if_neg h]
  constructor
  · rw [List.map_map]
    show (List.range 12).map (fun i => monthNames.getD i "") = monthNames
    decide
  · rw [List.length_map, List.length_range]

/-- C1 witness: the theorem applied to a one-reading series. -/
theorem C1_twelve_rows_witness :
    ([⟨some ⟨2025, 1, 5⟩, 42⟩] : List DataPoint) ≠ [] ∧
      ((processedData [⟨some ⟨2025, 1, 5⟩, 42⟩]).map MonthRow.month = monthNames ∧
        (processedData [⟨some ⟨2025, 1, 5⟩, 42⟩]).length = 12) :=
  ⟨by decide, C1_twelve_rows _ (by decide)⟩

/-! ### Claim C7 -/

/-- C7 counterexample: on the empty series every month partition is
empty, yet no row is produced at all (the January row is omitted
rather than present with a null median). -/
theorem C7_empty_partition_row_omitted_counterexample :
    monthPartition [] (fun y => 2020 ≤ y && y ≤ 2024) 0 = [] ∧
      processedData [] = [] ∧
      (processedData []).find? (fun r => r.month == "Jan") = none :=
  ⟨rfl, rfl, rfl⟩

/-- C7 (amended): the median of a non-empty list is the middle element
of the ascending sort for odd count and the mean of the two middle
elements for even count, so median [10,20,30,40] = 25 and
median [10,20,30] = 20; provided the input series is non-empty, a
month whose historical partition is empty still gets its row, with a
null (not zero) median. -/
theorem C7_median_and_empty_partition :
    calculateMedian [10, 20, 30, 40] = 25 ∧
      calculateMedian [10, 20, 30] = 20 ∧
      (∀ data : List DataPoint, data ≠ [] → ∀ i : Nat, i < 12 →
        monthPartition data (fun y => 2020 ≤ y && y ≤ 2024) i = [] →
        ∃ r : MonthRow, (processedData data).get? i = some r ∧
          r.median = none ∧ r.month = monthNames.getD i "") := by
  refine ⟨by norm_num [calculateMedian, List.insertionSort, List.orderedInsert, List.get?],
    by norm_num [calculateMedian, List.insertionSort, List.orderedInsert, List.get?],
    fun data h i hi hpart => ?_⟩
  refine ⟨seasonalRow data i, processedData_get? data h i hi, ?_, rfl⟩
  show (if (monthPartition data (fun y => 2020 ≤ y && y ≤ 2024) i).length > 0
        then some (calculateMedian (monthPartition data (fun y => 2020 ≤ y && y ≤ 2024) i))
        else none) = none
  rw [hpart]
  rfl

/-- C7 witness: the theorem applied to a one-reading 2025 series whose
2020–2024 partition for January is empty. -/
theorem C7_median_and_empty_partition_witness :
    (([⟨some ⟨2025, 1, 5⟩, 42⟩] : List DataPoint) ≠ [] ∧ 0 < 12 ∧
      monthPartition [⟨some ⟨2025, 1, 5⟩, 42⟩] (fun y => 2020 ≤ y && y ≤ 2024) 0 = []) ∧
      (∃ r : MonthRow, (processedData [⟨some ⟨2025, 1, 5⟩, 42⟩]).get? 0 = some r ∧
        r.median = none ∧ r.month = monthNames.getD 0 "") :=
  ⟨⟨by decide, by decide, by decide⟩,
    C7_median_and_empty_partition.2.2 _ (by decide) 0 (by decide) (by decide)⟩

/-! ### Claim C8 -/

/-- C8 counterexample: 2024 begins on a Monday, so the Monday = 0
convention calls for 0 leading padding cells, but the grid has 1 (the
code uses the JavaScript getDay Sunday = 0 convention). -/
theorem C8_monday_convention_counterexample :
    leadingPad (calendarData [] 2024) = 1 ∧ mondayIdxJan1 2024 = 0 ∧
      leadingPad (calendarData [] 2024) ≠ mondayIdxJan1 2024 := by
  have h1 : leadingPad (calendarData [] 2024) = 1 := by
    unfold leadingPad calendarData
    rw [takeWhile_replicate_append, takeWhile_map_some]
    decide
  exact ⟨h1, by decide, by rw [h1]; decide⟩

/-- C8 (amended): the number of leading padding cells before January 1
equals the weekday index of January 1 under the JavaScript getDay
convention (Sunday = 0, Monday = 1, ...), not the Monday = 0
convention; anchors: 2024 starts Monday (1), 2025 starts Wednesday
(3), 2023 starts Sunday (0). -/
theorem C8_padding_uses_sunday_convention :
    (∀ (data : List DataPoint) (y : Int),
      leadingPad (calendarData data y) = getDayOfWeek y 1 1) ∧
      getDayOfWeek 2024 1 1 = 1 ∧ getDayOfWeek 2025 1 1 = 3 ∧
      getDayOfWeek 2023 1 1 = 0 := by
  refine ⟨fun data y => ?_, by decide, by decide, by decide⟩
  unfold leadingPad calendarData
  rw [takeWhile_replicate_append, takeWhile_map_some]
  simp

/-! ### Claim C6 -/

lemma matrixFold_spec (data : List DataPoint) :
    ∀ (acc : Int → Nat → Option (ℚ × Nat)) (y : Int) (m : Nat),
      (data.foldl matrixStep acc) y m =
        match acc y m with
        | none =>
          if monthVals data y m = [] then none
          else some ((monthVals data y m).sum, (monthVals data y m).length)
        | some e => some (e.1 + (monthVals data y m).sum, e.2 + (monthVals data y m).length) := by
  induction data with
  | nil =>
    intro acc y m
    cases h : acc y m <;> simp [monthVals, h]
  | cons d rest ih =>
    intro acc y m
    rw [List.foldl_cons, ih (matrixStep acc d) y m]
    cases hd : d.date with
    | none =>
      have hstep : matrixStep acc d = acc := by rw [matrixStep, hd]
      have hvals : monthVals (d :: rest) y m = monthVals rest y m := by
        simp [monthVals, List.filter_cons, hd]
      rw [hstep, hvals]
    | some ymd =>
      by_cases hc : y = ymd.year ∧ m = ymd.month - 1
      · have hstep : (matrixStep acc d) y m =
            match acc y m with
            | none => some (d.value, 1)
            | some e => some (e.1 + d.value, e.2 + 1) := by
          rw [matrixStep, hd]
          simp only [if_pos hc]
          rw [← hc.1, ← hc.2]
        have hvals : monthVals (d :: rest) y m = d.value :: monthVals rest y m := by
          simp [monthVals, List.filter_cons, hd, hc.1, hc.2]
        rw [hstep, hvals]
        cases h : acc y m with
        | none =>
          cases hr : monthVals rest y m <;>
            simp [List.sum_cons, Nat.add_comm, add_comm, add_assoc, Nat.add_assoc]
        | some e =>
          simp [List.sum_cons, add_assoc, Nat.add_assoc, Nat.add_comm 1]
      · have hstep : (matrixStep acc d) y m = acc y m := by
          rw [matrixStep, hd]
          simp only [if_neg hc]
        have hvals : monthVals (d :: rest) y m = monthVals rest y m := by
          have : ¬(y == ymd.year && m == ymd.month - 1) = true := by
            simp only [Bool.and_eq_true, beq_iff_eq]
            exact fun h => hc ⟨h.1, h.2⟩
          simp [monthVals, List.filter_cons, hd, this]
        rw [hstep, hvals]

/-- C6: the per-cell monthly mean of the heatmap equals sum divided by
count over exactly the readings whose parseable date has calendar year
y and 0-based month m, unrounded, and is null when that set is empty. -/
theorem C6_month_mean (data : List DataPoint) (y : Int) (m : Nat) :
    heatmapAvg data y m =
      if monthVals data y m = [] then none
      else some ((monthVals data y m).sum / ((monthVals data y m).length : ℚ)) := by
  unfold heatmapAvg matrixFold
  rw [matrixFold_spec]
  by_cases hv : monthVals data y m = [] <;> simp [hv]

/-! ### Claim C5 -/

lemma windowVals_sum (arr : List TPoint) :
    ∀ (w i : Nat), w ≤ i + 1 → i < arr.length →
      (windowVals arr w i).sum = (((arr.drop (i + 1 - w)).take w).map TPoint.value).sum := by
  intro w
  induction w with
  | zero => intro i h1 h2; simp [windowVals]
  | succ k ih =>
    intro i h1 h2
    have hk : k ≤ i := Nat.lt_succ_iff.mp h1
    have hik : i - k < arr.length := lt_of_le_of_lt (Nat.sub_le i k) h2
    have hdrop : arr.drop (i - k) = arr.get ⟨i - k, hik⟩ :: arr.drop (i - k + 1) :=
      List.drop_eq_getElem_cons hik
    have harith1 : i + 1 - (k + 1) = i - k := by omega
    have harith2 : i - k + 1 = i + 1 - k := by omega
    rw [windowVals, List.range_succ, List.map_append, List.sum_append, harith1, hdrop,
      List.take_cons, List.map_cons, List.sum_cons, harith2]
    have hget : arr.get? (i - k) = some (arr.get ⟨i - k, hik⟩) := List.get?_eq_get hik
    have hlast : ((List.range k).map
        (fun j => ((arr.get? (i - j)).map TPoint.value).getD 0)).sum
          = (windowVals arr k i).sum := rfl
    rw [hlast, ih i (le_trans (Nat.le_succ k) h1) h2, hget]
    · simp [add_comm]
    · exact Nat.succ_pos k

/-- The seven-reading example series of the specification. -/
def exampleSeries7 : List TPoint :=
  [⟨⟨2025, 1, 1⟩, 10⟩, ⟨⟨2025, 1, 2⟩, 20⟩, ⟨⟨2025, 1, 3⟩, 30⟩, ⟨⟨2025, 1, 4⟩, 40⟩,
    ⟨⟨2025, 1, 5⟩, 50⟩, ⟨⟨2025, 1, 6⟩, 60⟩, ⟨⟨2025, 1, 7⟩, 70⟩]

/-- C5: for a series already sorted ascending by date, the output at
index i is null when i < w - 1 and otherwise the arithmetic mean of
the w values at raw index positions i-w+1 .. i; on the seven-day
example with window 7 every output is null except index 6, which
is 40. -/
theorem C5_moving_average :
    (∀ (w : Nat) (data : List TPoint), trendSort data = data → ∀ i : Nat, i < data.length →
      ∃ p : TPoint, data.get? i = some p ∧
        (chartData w data).get? i = some
          { date := p.date, value := p.value,
            ma := if w - 1 ≤ i then
                some ((((data.drop (i + 1 - w)).take w).map TPoint.value).sum / (w : ℚ))
              else none }) ∧
      (chartData 7 exampleSeries7).map TrendRow.ma =
        [none, none, none, none, none, none, some 40] := by
  constructor
  · intro w data hs i hi
    have hne : data ≠ [] := by
      intro h
      rw [h] at hi
      exact absurd hi (by simp)
    have hget : data.get? i = some (data.get ⟨i, hi⟩) := List.get?_eq_get hi
    refine ⟨data.get ⟨i, hi⟩, hget, ?_⟩
    rw [chartData, if_neg hne]
    show ((List.range (trendSort data).length).map (trendRowAt (trendSort data) w)).get? i
      = _
    rw [hs, List.get?_map, List.get?_range hi]
    show some (trendRowAt data w i) = _
    rw [trendRowAt]
    simp only [hget, Option.getD_some]
    by_cases hcond : w - 1 ≤ i
    · have hw : w ≤ i + 1 := by omega
      rw [if_pos hcond, if_pos hcond, windowVals_sum data w i hw hi]
    · rw [if_neg hcond, if_neg hcond]
  · show (List.map TrendRow.ma (chartData 7 exampleSeries7)) = _
    norm_num [chartData, exampleSeries7, trendSort, List.insertionSort, List.orderedInsert,
      trendLe, dateKey, trendRowAt, windowVals, List.range_succ]
    simp

/-- C5 witness: the general statement applied at window 7, index 6 of
the seven-day example series. -/
theorem C5_moving_average_witness :
    (trendSort exampleSeries7 = exampleSeries7 ∧ 6 < exampleSeries7.length) ∧
      (∃ p : TPoint, exampleSeries7.get? 6 = some p ∧
        (chartData 7 exampleSeries7).get? 6 = some
          { date := p.date, value := p.value,
            ma := if 7 - 1 ≤ 6 then
                some ((((exampleSeries7.drop (6 + 1 - 7)).take 7).map TPoint.value).sum / (7 : ℚ))
              else none }) :=
  ⟨⟨by decide, by decide⟩,
    C5_moving_average.1 7 exampleSeries7 (by decide) 6 (by decide)⟩

/-! ### Claim C9 -/

lemma trendSort_eq_of_perm_nodup (l1 l2 : List TPoint) (hp : l1.Perm l2)
    (hnd : (l1.map (fun p => dateKey p.date)).Nodup) :
    trendSort l1 = trendSort l2 := by
  have hs1 := List.sorted_insertionSort trendLe l1
  have hs2 := List.sorted_insertionSort trendLe l2
  have hperm : (trendSort l1).Perm (trendSort l2) :=
    (List.perm_insertionSort trendLe l1).trans
      (hp.trans (List.perm_insertionSort trendLe l2).symm)
  have hnd1 : ((trendSort l1).map (fun p => dateKey p.date)).Nodup :=
    (((List.perm_insertionSort trendLe l1).map _).nodup_iff).mpr hnd
  have hnd2 : ((trendSort l2).map (fun p => dateKey p.date)).Nodup :=
    ((hperm.map _).nodup_iff).mp hnd1
  have hlt1 : List.Sorted trendLt (trendSort l1) := by
    rw [List.Nodup, List.pairwise_map] at hnd1
    exact List.Pairwise.imp (fun hab => lt_of_le_of_ne hab.1 hab.2) (hs1.and hnd1)
  have hlt2 : List.Sorted trendLt (trendSort l2) := by
    rw [List.Nodup, List.pairwise_map] at hnd2
    exact List.Pairwise.imp (fun hab => lt_of_le_of_ne hab.1 hab.2) (hs2.and hnd2)
  exact List.eq_of_perm_of_sorted hperm hlt1 hlt2

/-- C9 counterexample: two readings share a date with different
values; swapping them is a permutation of the input, yet the stable
defensive sort preserves the two input orders, so the outputs differ. -/
theorem C9_duplicate_date_counterexample :
    ([⟨⟨2025, 1, 1⟩, 1⟩, ⟨⟨2025, 1, 1⟩, 2⟩] : List TPoint).Perm
        [⟨⟨2025, 1, 1⟩, 2⟩, ⟨⟨2025, 1, 1⟩, 1⟩] ∧
      chartData 7 [⟨⟨2025, 1, 1⟩, 1⟩, ⟨⟨2025, 1, 1⟩, 2⟩] ≠
        chartData 7 [⟨⟨2025, 1, 1⟩, 2⟩, ⟨⟨2025, 1, 1⟩, 1⟩] :=
  ⟨List.Perm.swap _ _ _, by decide⟩

/-- C9 (amended): the component does re-sort ascending by date, and
when all date keys are distinct the output is invariant under any
permutation of the input; with duplicate dates the stable sort
preserves input order, so reorderings of equal-dated readings are
observable. -/
theorem C9_resort_perm_invariant (w : Nat) (l1 l2 : List TPoint) (hp : l1.Perm l2)
    (hnd : (l1.map (fun p => dateKey p.date)).Nodup) :
    chartData w l1 = chartData w l2 := by
  have hsort := trendSort_eq_of_perm_nodup l1 l2 hp hnd
  by_cases h1 : l1 = []
  · subst h1
    rw [hp.symm.eq_nil]
  · have h2 : l2 ≠ [] := fun h => h1 (by rw [h] at hp; exact hp.eq_nil)
    rw [chartData, chartData, if_neg h1, if_neg h2, hsort]

/-- C9 witness: the theorem applied to a two-reading series with
distinct dates and its reversal. -/
theorem C9_resort_perm_invariant_witness :
    (([⟨⟨2025, 1, 2⟩, 5⟩, ⟨⟨2025, 1, 1⟩, 3⟩] : List TPoint).Perm
        [⟨⟨2025, 1, 1⟩, 3⟩, ⟨⟨2025, 1, 2⟩, 5⟩] ∧
      (([⟨⟨2025, 1, 2⟩, 5⟩, ⟨⟨2025, 1, 1⟩, 3⟩] : List TPoint).map
          (fun p => dateKey p.date)).Nodup) ∧
      chartData 7 [⟨⟨2025, 1, 2⟩, 5⟩, ⟨⟨2025, 1, 1⟩, 3⟩] =
        chartData 7 [⟨⟨2025, 1, 1⟩, 3⟩, ⟨⟨2025, 1, 2⟩, 5⟩] :=
  ⟨⟨List.Perm.swap _ _ _, by decide⟩,
    C9_resort_perm_invariant 7 _ _ (List.Perm.swap _ _ _) (by decide)⟩

/-! ### Claim C2 -/

lemma weeklyFold_spec (Y : Int) (pm25 : List DataPoint) :
    ∀ (acc : Nat → Option (List ℚ)) (w : Nat),
      (pm25.foldl (weeklyStep Y) acc) w =
        match acc w with
        | none => none
        | some l => some (l ++ (pm25.filter (weekMatch Y w)).map DataPoint.value) := by
  induction pm25 with
  | nil => intro acc w; cases h : acc w <;> simp [h]
  | cons d rest ih =>
    intro acc w
    rw [List.foldl_cons, ih (weeklyStep Y acc d) w]
    cases hd : d.date with
    | none =>
      have hstep : weeklyStep Y acc d = acc := by rw [weeklyStep, hd]
      have hm : weekMatch Y w d = false := by simp [weekMatch, hd]
      rw [hstep]
      cases h : acc w <;> simp [h, List.filter_cons, hm]
    | some ymd =>
      by_cases hy : ymd.year = Y
      · cases hb : acc (getISOWeek ymd) with
        | none =>
          have hstep : weeklyStep Y acc d = acc := by
            rw [weeklyStep, hd]
            simp [hy, hb]
          rw [hstep]
          by_cases hw : getISOWeek ymd = w
          · rw [hw] at hb
            simp [hb]
          · have hm : weekMatch Y w d = false := by
              simp [weekMatch, hd, hy, hw]
            cases h : acc w <;> simp [h, List.filter_cons, hm]
        | some l9 =>
          have hstep : weeklyStep Y acc d =
              fun x => if x = getISOWeek ymd then some (l9 ++ [d.value]) else acc x := by
            rw [weeklyStep, hd]
            simp [hy, hb]
          rw [hstep]
          by_cases hw : w = getISOWeek ymd
          · have hm : weekMatch Y w d = true := by
              simp [weekMatch, hd, hy, hw]
            have hb2 : acc w = some l9 := by rw [hw]; exact hb
            simp [if_pos hw, hb2, List.filter_cons, hm, List.append_assoc]
          · have hm : weekMatch Y w d = false := by
              simp only [weekMatch, hd, hy, Bool.and_eq_true, beq_iff_eq, true_and]
              simp only [Bool.and_eq_false_iff]
              right
              simp only [beq_eq_false_iff_ne, ne_eq]
              exact fun hcontra => hw hcontra.symm
            simp only [if_neg hw]
            cases h : acc w <;> simp [h, List.filter_cons, hm]
      · have hstep : weeklyStep Y acc d = acc := by
          rw [weeklyStep, hd]
          simp [hy]
        have hm : weekMatch Y w d = false := by simp [weekMatch, hd, hy]
        rw [hstep]
        cases h : acc w <;> simp [h, List.filter_cons, hm]

/-- C2 counterexample: the reading dated 2024-12-30 has ISO week-year
2025 (week 1), so under the claim it must be excluded from every
bucket of selected year 2024 and land in week 1 of 2025; the code
instead keys on the calendar year, so for 2024 its week-1 average is
50 and for 2025 it is null. -/
theorem C2_iso_week_year_counterexample :
    isoWeekYear ⟨2024, 12, 30⟩ = 2025 ∧ getISOWeek ⟨2024, 12, 30⟩ = 1 ∧
      avgPM25At [⟨some ⟨2024, 12, 30⟩, 50⟩] 2024 1 = some 50 ∧
      avgPM25At [⟨some ⟨2024, 12, 30⟩, 50⟩] 2025 1 = none := by
  have hwm : weekMatch 2024 1 (⟨some ⟨2024, 12, 30⟩, 50⟩ : DataPoint) = true := by decide
  have hwm2 : weekMatch 2025 1 (⟨some ⟨2024, 12, 30⟩, 50⟩ : DataPoint) = false := by decide
  refine ⟨by decide, by decide, ?_, ?_⟩
  · rw [avgPM25At, weeklyBuckets, weeklyFold_spec]
    norm_num [List.filter_cons, hwm]
  · rw [avgPM25At, weeklyBuckets, weeklyFold_spec]
    norm_num [List.filter_cons, hwm2]

/-- C2 (amended): a reading is included in the weekly average of the
selected year if and only if its calendar year (not its ISO week-year)
equals the selected year; matching readings are bucketed by ISO week
number 1..53 and averaged. -/
theorem C2_weekly_buckets_by_calendar_year (pm25 : List DataPoint) (Y : Int) (w : Nat)
    (h1 : 1 ≤ w) (h53 : w ≤ 53) :
    weeklyBuckets pm25 Y w = some ((pm25.filter (weekMatch Y w)).map DataPoint.value) ∧
      avgPM25At pm25 Y w =
        (if (pm25.filter (weekMatch Y w)).map DataPoint.value = [] then none
         else some (((pm25.filter (weekMatch Y w)).map DataPoint.value).sum /
           (((pm25.filter (weekMatch Y w)).map DataPoint.value).length : ℚ))) := by
  have hb : weeklyBuckets pm25 Y w
      = some ((pm25.filter (weekMatch Y w)).map DataPoint.value) := by
    rw [weeklyBuckets, weeklyFold_spec]
    rw [if_pos ⟨h1, h53⟩]
    simp
  refine ⟨hb, ?_⟩
  rw [avgPM25At, hb]
  show (if 0 < ((pm25.filter (weekMatch Y w)).map DataPoint.value).length
        then some (((pm25.filter (weekMatch Y w)).map DataPoint.value).sum /
          (((pm25.filter (weekMatch Y w)).map DataPoint.value).length : ℚ))
        else none) = _
  by_cases hv : (pm25.filter (weekMatch Y w)).map DataPoint.value = []
  · rw [hv]
    simp
  · rw [if_pos (List.length_pos.mpr hv), if_neg hv]

/-- C2 witness: the theorem applied to the one-reading series dated
2025-01-01 for week 1 of year 2025. -/
theorem C2_weekly_buckets_witness :
    ((1 : Nat) ≤ 1 ∧ (1 : Nat) ≤ 53) ∧
      (weeklyBuckets [⟨some ⟨2025, 1, 1⟩, 10⟩] 2025 1 =
          some (([⟨some ⟨2025, 1, 1⟩, 10⟩] : List DataPoint).filter
            (weekMatch 2025 1) |>.map DataPoint.value) ∧
        avgPM25At [⟨some ⟨2025, 1, 1⟩, 10⟩] 2025 1 =
          (if (([⟨some ⟨2025, 1, 1⟩, 10⟩] : List DataPoint).filter
              (weekMatch 2025 1)).map DataPoint.value = [] then none
           else some (((([⟨some ⟨2025, 1, 1⟩, 10⟩] : List DataPoint).filter
              (weekMatch 2025 1)).map DataPoint.value).sum /
             (((([⟨some ⟨2025, 1, 1⟩, 10⟩] : List DataPoint).filter
              (weekMatch 2025 1)).map DataPoint.value).length : ℚ)))) :=
  ⟨⟨by decide, by decide⟩,
    C2_weekly_buckets_by_calendar_year _ 2025 1 (by decide) (by decide)⟩

/-! ### Claim C10 -/

/-- C10: a day of the grid whose (last) input reading has value
exactly 0 is rendered as null, and is indistinguishable from a day
with no reading at all. -/
theorem C10_zero_reading_null (data : List DataPoint) (y : Int) (k : Ymd)
    (hk : k ∈ yearDays y) (h0 : lookupLast data k = some 0) :
    dayValue data k = none ∧
      some (⟨k, none⟩ : DayCell) ∈ calendarData data y ∧
      ∀ data2 : List DataPoint, lookupLast data2 k = none →
        dayValue data2 k = dayValue data k := by
  have hdv : dayValue data k = none := by
    rw [dayValue, h0]
    simp
  refine ⟨hdv, ?_, fun data2 h2 => by rw [dayValue, h2, hdv]⟩
  rw [calendarData]
  refine List.mem_append_right _ (List.mem_map.mpr ⟨k, hk, ?_⟩)
  rw [hdv]

/-- C10 witness: the theorem applied to a series holding a single
reading of 0 on 2025-01-02. -/
theorem C10_zero_reading_null_witness :
    ((⟨2025, 1, 2⟩ : Ymd) ∈ yearDays 2025 ∧
      lookupLast [⟨some ⟨2025, 1, 2⟩, 0⟩] ⟨2025, 1, 2⟩ = some 0) ∧
      (dayValue [⟨some ⟨2025, 1, 2⟩, 0⟩] ⟨2025, 1, 2⟩ = none ∧
        some (⟨⟨2025, 1, 2⟩, none⟩ : DayCell) ∈ calendarData [⟨some ⟨2025, 1, 2⟩, 0⟩] 2025 ∧
        ∀ data2 : List DataPoint, lookupLast data2 ⟨2025, 1, 2⟩ = none →
          dayValue data2 ⟨2025, 1, 2⟩ = dayValue [⟨some ⟨2025, 1, 2⟩, 0⟩] ⟨2025, 1, 2⟩) :=
  ⟨⟨by decide, by decide⟩,
    C10_zero_reading_null _ 2025 _ (by decide) (by decide)⟩

/-! ### Concrete health-data inputs shared by the C3 and C4 theorems -/

/-- One PM2.5 reading dated 2025-01-01 (ISO week 1 of 2025). -/
def pmEx : List DataPoint := [⟨some ⟨2025, 1, 1⟩, 10⟩]

/-- Health data for 2025 with categories A and B and a separately
stored Total array that disagrees with their sum. -/
def yhEx3 : YearHDC := ⟨[], [("A", [1]), ("B", [2]), ("Total", [999])]⟩

/-- Payload wrapping yhEx3 under province P with groups [A, B]. -/
def hdcEx3 : HDCData := ⟨["A", "B"], [("P", [(2025, yhEx3)])]⟩

/-- Health data for 2025 with no per-category arrays at all. -/
def yhEx4 : YearHDC := ⟨[], []⟩

/-- Payload wrapping yhEx4 under province P with groups [A]. -/
def hdcEx4 : HDCData := ⟨["A"], [("P", [(2025, yhEx4)])]⟩

lemma avgPM25At_pmEx : avgPM25At pmEx 2025 1 = some 10 := by
  have hwm : weekMatch 2025 1 (⟨some ⟨2025, 1, 1⟩, 10⟩ : DataPoint) = true := by decide
  rw [avgPM25At, weeklyBuckets, weeklyFold_spec]
  norm_num [pmEx, List.filter_cons, hwm]

lemma avgPM25At_pmEx_none (w : Nat) (h1 : 1 ≤ w) (h53 : w ≤ 53) (hne : w ≠ 1) :
    avgPM25At pmEx 2025 w = none := by
  have hwm : weekMatch 2025 w (⟨some ⟨2025, 1, 1⟩, 10⟩ : DataPoint) = false := by
    have hiso : getISOWeek ⟨2025, 1, 1⟩ = 1 := by decide
    simp [weekMatch, hiso]
    exact fun hcontra => hne hcontra.symm
  rw [avgPM25At, weeklyBuckets, weeklyFold_spec]
  rw [if_pos ⟨h1, h53⟩]
  simp [pmEx, List.filter_cons, hwm]

/-! ### Claim C3 -/

lemma groupsFold_total (diseases : List (String × List ℚ)) (i : Nat) :
    ∀ (groups : List String) (acc : GAcc),
      (groups.foldl (groupStep diseases i) acc).total =
        acc.total + (groups.map (fun g => countAt diseases g i)).sum := by
  intro groups
  induction groups with
  | nil => intro acc; simp
  | cons g rest ih =>
    intro acc
    rw [List.foldl_cons, ih (groupStep diseases i acc g), List.map_cons, List.sum_cons]
    cases hl : List.lookup g diseases with
    | none => simp [groupStep, hl, countAt]
    | some counts =>
      cases hc : counts[i]? with
      | none => simp [groupStep, hl, hc, countAt, List.get?_eq_getElem?]
      | some c =>
        simp only [groupStep, hl, hc, countAt, List.get?_eq_getElem?, Option.getD_some]
        ring

lemma groupsFold_hasData (diseases : List (String × List ℚ)) (i : Nat) :
    ∀ (groups : List String) (acc : GAcc),
      (groups.foldl (groupStep diseases i) acc).hasData =
        (acc.hasData || groups.any
          (fun g => ((List.lookup g diseases).bind (fun counts => counts.get? i)).isSome)) := by
  intro groups
  induction groups with
  | nil => intro acc; simp
  | cons g rest ih =>
    intro acc
    rw [List.foldl_cons, ih (groupStep diseases i acc g), List.any_cons]
    cases hl : List.lookup g diseases with
    | none => simp [groupStep, hl]
    | some counts =>
      cases hc : counts[i]? with
      | none => simp [groupStep, hl, hc, List.get?_eq_getElem?]
      | some c => simp [groupStep, hl, hc, List.get?_eq_getElem?]

/-- C3 counterexample: with stored arrays A = [1], B = [2] and
Total = [999], the first version of the aligner reports 999 cases for
week 1 (read from the stored Total field) although the sum of the
named categories is 3. -/
theorem C3_stored_total_counterexample :
    (⟨1, some 10, JsNum.num 999⟩ : Row1) ∈ chartData1 pmEx "P" (some hdcEx3) 2025 "Total" ∧
      countAt yhEx3.diseases "A" 0 + countAt yhEx3.diseases "B" 0 = 3 ∧
      (999 : ℚ) ≠ 3 := by
  have hba : ("B" == "A") = false := by decide
  refine ⟨?_, by norm_num [countAt, yhEx3, List.lookup, hba], by norm_num⟩
  have he : chartData1 pmEx "P" (some hdcEx3) 2025 "Total"
      = (List.range 53).filterMap (mkRow1 pmEx 2025 "Total" yhEx3) := rfl
  rw [he]
  refine List.mem_filterMap.mpr ⟨0, List.mem_range.mpr (by decide), ?_⟩
  have hcc : caseCount1 yhEx3 "Total" 0 = JsNum.num 999 := by decide
  rw [mkRow1, avgPM25At_pmEx, hcc]
  simp

/-- C3 (amended): in the second version the Total case count is
recomputed as the sum over every category name in metadata.groups of
that category count (categories with a missing array or missing week
entry contribute 0); the first version instead reads the separately
stored Total array. -/
theorem C3_total_recomputed :
    (∀ (groups : List String) (diseases : List (String × List ℚ)) (i : Nat),
      (groupsCollect groups diseases i).total =
        (groups.map (fun g => countAt diseases g i)).sum) ∧
      (∀ (pm25 : List DataPoint) (Y : Int) (groups : List String) (yh : YearHDC)
        (i : Nat) (r : Row2), mkRow2 pm25 Y "Total" groups yh i = some r →
        r.cases = JsNum.num ((groups.map (fun g => countAt yh.diseases g i)).sum)) := by
  have htotal : ∀ (groups : List String) (diseases : List (String × List ℚ)) (i : Nat),
      (groupsCollect groups diseases i).total =
        (groups.map (fun g => countAt diseases g i)).sum := by
    intro groups diseases i
    rw [groupsCollect, groupsFold_total]
    simp
  refine ⟨htotal, fun pm25 Y groups yh i r hr => ?_⟩
  rw [mkRow2] at hr
  split at hr
  · have hr2 := Option.some.inj hr
    rw [← hr2]
    simp [htotal groups yh.diseases i]
  · exact absurd hr (by simp)

/-- C3 witness: the second conjunct applied at week index 0 of the
concrete payload with categories A = [1] and B = [2]. -/
theorem C3_total_recomputed_witness :
    (∃ r : Row2, mkRow2 pmEx 2025 "Total" ["A", "B"] yhEx3 0 = some r ∧
      r.cases = JsNum.num (((["A", "B"] : List String).map
        (fun g => countAt yhEx3.diseases g 0)).sum)) := by
  have hrow : mkRow2 pmEx 2025 "Total" ["A", "B"] yhEx3 0
      = some ⟨1, some 10, JsNum.num ((groupsCollect ["A", "B"] yhEx3.diseases 0).total),
          (groupsCollect ["A", "B"] yhEx3.diseases 0).gc⟩ := by
    rw [mkRow2, avgPM25At_pmEx]
    simp
  exact ⟨_, hrow, C3_total_recomputed.2 pmEx 2025 ["A", "B"] yhEx3 0 _ hrow⟩

/-! ### Claim C4 -/

/-- C4 counterexample: with no health arrays at all, the week-1 row
(emitted because PM2.5 data exists) carries a case count of 0, not
null, in the second version with Total selected. -/
theorem C4_zero_cases_counterexample :
    yhEx4.diseases = [] ∧
      (⟨1, some 10, JsNum.num 0, []⟩ : Row2)
        ∈ chartData2 pmEx "P" (some hdcEx4) 2025 "Total" ∧
      JsNum.num 0 ≠ JsNum.jsNull := by
  refine ⟨rfl, ?_, by simp⟩
  have he : chartData2 pmEx "P" (some hdcEx4) 2025 "Total"
      = (List.range 53).filterMap (mkRow2 pmEx 2025 "Total" ["A"] yhEx4) := rfl
  rw [he]
  refine List.mem_filterMap.mpr ⟨0, List.mem_range.mpr (by decide), ?_⟩
  have hg : groupsCollect ["A"] yhEx4.diseases 0 = ⟨[], 0, false⟩ := rfl
  rw [mkRow2, avgPM25At_pmEx, hg]
  simp

/-- C4 (amended): when the province and year lookups succeed, the
PM2.5 series is non-empty and the selected category array (when
present) has the contractual 53 entries, a row is emitted for week w
exactly when the weekly PM2.5 average or the case count is non-null;
a PM2.5-only week yields a null case count in the first version, a
week with neither yields no row, and in the second version a row is
emitted exactly when the PM2.5 average is non-null or some named
category has an entry for the week. -/
theorem C4_sparse_rows (pm25 : List DataPoint) (province : String) (h : HDCData)
    (Y : Int) (sel : String) (ymap : List (Int × YearHDC)) (yh : YearHDC)
    (hprov : List.lookup province h.data = some ymap)
    (hyear : List.lookup Y ymap = some yh)
    (hpm : pm25 ≠ [])
    (hlen : ∀ counts, List.lookup sel yh.diseases = some counts → counts.length = 53)
    (w : Nat) (h1 : 1 ≤ w) (h53 : w ≤ 53) :
    ((∃ r ∈ chartData1 pm25 province (some h) Y sel, r.week = w) ↔
      (avgPM25At pm25 Y w ≠ none ∨ caseCount1 yh sel (w - 1) ≠ JsNum.jsNull)) ∧
      (caseCount1 yh sel (w - 1) ≠ JsNum.jsNull ↔
        (List.lookup sel yh.diseases).isSome = true) ∧
      (avgPM25At pm25 Y w ≠ none → caseCount1 yh sel (w - 1) = JsNum.jsNull →
        (⟨w, avgPM25At pm25 Y w, JsNum.jsNull⟩ : Row1)
          ∈ chartData1 pm25 province (some h) Y sel) ∧
      (avgPM25At pm25 Y w = none → caseCount1 yh sel (w - 1) = JsNum.jsNull →
        ∀ r ∈ chartData1 pm25 province (some h) Y sel, r.week ≠ w) ∧
      ((∃ r ∈ chartData2 pm25 province (some h) Y sel, r.week = w) ↔
        (avgPM25At pm25 Y w ≠ none ∨
          (groupsCollect h.groups yh.diseases (w - 1)).hasData = true)) := by
  have hww : w - 1 + 1 = w := by omega
  have hwlt : w - 1 < 53 := by omega
  have e1 : chartData1 pm25 province (some h) Y sel
      = (List.range 53).filterMap (mkRow1 pm25 Y sel yh) := by
    simp only [chartData1, hprov, hyear, if_neg hpm]
  have e2 : chartData2 pm25 province (some h) Y sel
      = (List.range 53).filterMap (mkRow2 pm25 Y sel h.groups yh) := by
    simp only [chartData2, hprov, hyear, if_neg hpm]
  have hmem1 : ∀ r : Row1, r ∈ chartData1 pm25 province (some h) Y sel ↔
      ∃ i, i < 53 ∧ mkRow1 pm25 Y sel yh i = some r := by
    intro r
    rw [e1]
    simp [List.mem_filterMap, List.mem_range]
  have hmem2 : ∀ r : Row2, r ∈ chartData2 pm25 province (some h) Y sel ↔
      ∃ i, i < 53 ∧ mkRow2 pm25 Y sel h.groups yh i = some r := by
    intro r
    rw [e2]
    simp [List.mem_filterMap, List.mem_range]
  have hweek1 : ∀ i r, mkRow1 pm25 Y sel yh i = some r →
      r = ⟨i + 1, avgPM25At pm25 Y (i + 1), caseCount1 yh sel i⟩ := by
    intro i r hr
    rw [mkRow1] at hr
    split at hr
    · exact (Option.some.inj hr).symm
    · exact absurd hr (by simp)
  have hweek2 : ∀ i r, mkRow2 pm25 Y sel h.groups yh i = some r → r.week = i + 1 := by
    intro i r hr
    rw [mkRow2] at hr
    split at hr
    · rw [← Option.some.inj hr]
    · exact absurd hr (by simp)
  have hmk1 : ∀ i, (avgPM25At pm25 Y (i + 1) ≠ none ∨ caseCount1 yh sel i ≠ JsNum.jsNull) →
      mkRow1 pm25 Y sel yh i = some ⟨i + 1, avgPM25At pm25 Y (i + 1), caseCount1 yh sel i⟩ := by
    intro i hcond
    rw [mkRow1, if_pos hcond]
  have hmk1n : ∀ i, ¬(avgPM25At pm25 Y (i + 1) ≠ none ∨ caseCount1 yh sel i ≠ JsNum.jsNull) →
      mkRow1 pm25 Y sel yh i = none := by
    intro i hcond
    rw [mkRow1, if_neg hcond]
  refine ⟨?_, ?_, ?_, ?_, ?_⟩
  · constructor
    · rintro ⟨r, hrmem, hrw⟩
      obtain ⟨i, hi, hri⟩ := (hmem1 r).mp hrmem
      have hr := hweek1 i r hri
      have hiw : i = w - 1 := by
        rw [hr] at hrw
        simp only at hrw
        omega
      subst hiw
      by_contra hc
      have := hmk1n (w - 1) (by rw [hww]; exact hc)
      rw [this] at hri
      exact absurd hri (by simp)
    · intro hcond
      refine ⟨⟨w, avgPM25At pm25 Y w, caseCount1 yh sel (w - 1)⟩, ?_, rfl⟩
      refine (hmem1 _).mpr ⟨w - 1, hwlt, ?_⟩
      have := hmk1 (w - 1) (by rw [hww]; exact hcond)
      rw [hww] at this
      exact this
  · cases hL : List.lookup sel yh.diseases with
    | none =>
      simp only [caseCount1, hL]
      simp
    | some counts =>
      have hlen53 := hlen counts hL
      have hg : counts.get? (w - 1)
          = some (counts.get ⟨w - 1, by rw [hlen53]; exact hwlt⟩) :=
        List.get?_eq_get (by rw [hlen53]; exact hwlt)
      simp only [caseCount1, hL, hg]
      simp
  · intro havg hcc
    refine (hmem1 _).mpr ⟨w - 1, hwlt, ?_⟩
    have := hmk1 (w - 1) (by rw [hww]; exact Or.inl havg)
    rw [hww, hcc] at this
    exact this
  · intro havg hcc r hrmem hrw
    obtain ⟨i, hi, hri⟩ := (hmem1 r).mp hrmem
    have hr := hweek1 i r hri
    have hiw : i = w - 1 := by
      rw [hr] at hrw
      simp only at hrw
      omega
    subst hiw
    have := hmk1n (w - 1) (by rw [hww, havg, hcc]; simp)
    rw [this] at hri
    exact absurd hri (by simp)
  · constructor
    · rintro ⟨r, hrmem, hrw⟩
      obtain ⟨i, hi, hri⟩ := (hmem2 r).mp hrmem
      have hiw : i = w - 1 := by
        have := hweek2 i r hri
        omega
      subst hiw
      by_contra hc
      rw [mkRow2, if_neg (by rw [hww]; exact hc)] at hri
      exact absurd hri (by simp)
    · intro hcond
      have hrow : mkRow2 pm25 Y sel h.groups yh (w - 1)
          = some ⟨w - 1 + 1, avgPM25At pm25 Y (w - 1 + 1),
              (if sel = "Total"
               then JsNum.num (groupsCollect h.groups yh.diseases (w - 1)).total
               else match List.lookup sel (groupsCollect h.groups yh.diseases (w - 1)).gc with
                    | some c => JsNum.num c
                    | none => JsNum.jsUndef),
              (groupsCollect h.groups yh.diseases (w - 1)).gc⟩ := by
        rw [mkRow2, if_pos (by rw [hww]; exact hcond)]
      refine ⟨_, (hmem2 _).mpr ⟨w - 1, hwlt, hrow⟩, ?_⟩
      simp only
      omega

/-- Health data for 2025 with one category A holding the contractual
53 weekly counts. -/
def yhEx5 : YearHDC := ⟨[], [("A", List.replicate 53 2)]⟩

/-- Payload wrapping yhEx5 under province P with groups [A]. -/
def hdcEx5 : HDCData := ⟨["A"], [("P", [(2025, yhEx5)])]⟩

/-- C4 witness: the theorem applied to the concrete payload for week 1
of 2025. -/
theorem C4_sparse_rows_witness :
    (List.lookup "P" hdcEx5.data = some [(2025, yhEx5)] ∧
      List.lookup (2025 : Int) [(2025, yhEx5)] = some yhEx5 ∧
      pmEx ≠ [] ∧
      (∀ counts : List ℚ, List.lookup "A" yhEx5.diseases = some counts →
        counts.length = 53) ∧
      (1 : Nat) ≤ 1 ∧ (1 : Nat) ≤ 53) ∧
      ((∃ r ∈ chartData1 pmEx "P" (some hdcEx5) 2025 "A", r.week = 1) ↔
        (avgPM25At pmEx 2025 1 ≠ none ∨ caseCount1 yhEx5 "A" (1 - 1) ≠ JsNum.jsNull)) := by
  have hlen : ∀ counts : List ℚ, List.lookup "A" yhEx5.diseases = some counts →
      counts.length = 53 := by
    intro counts hc
    rw [show List.lookup "A" yhEx5.diseases = some (List.replicate 53 (2 : ℚ)) from rfl] at hc
    rw [← Option.some.inj hc, List.length_replicate]
  exact ⟨⟨rfl, rfl, by decide, hlen, by decide, by decide⟩,
    (C4_sparse_rows pmEx "P" hdcEx5 2025 "A" [(2025, yhEx5)] yhEx5
      rfl rfl (by decide) hlen 1 (by decide) (by decide)).1⟩

end PM25
